import Mathlib

/-!
Verification of the client reconciliation and backup-on-write pipeline of the
rmm_halo_asset_sync repository. Shallow embedding of the relevant parts of
client_classes.py, general.py, nsight_requests.py, halo_requests.py,
sql_operations.py and the module-level driver sync_clients.py.
-/

namespace RmmHaloSync

/-! ## Identity and comparison model (client_classes.py) -/

/-- Fields that the comparison_variables list of the Client class can hold:
name is always present, toplevel_id is appended by the driver when an N-sight
toplevel is configured (sync_clients.py line 233). -/
inductive ClientField where
  | name
  | toplevel_id
deriving DecidableEq, Repr

/-- The attributes of a client object reachable by the comparison. Every
concrete client class of client_classes.py (NsightClient, HaloClient,
HaloToplevel) carries both a name and a toplevel_id. -/
structure ClientRec where
  name : String
  toplevel_id : String
deriving DecidableEq, Repr

/-- Embedding of Python str.lower: lowercase every character. (Lean's own
String.toLower is the same map but is defined through String.mapAux, which the
kernel cannot evaluate; this definition is kernel-computable.) -/
def pyLower (s : String) : String := ⟨s.data.map Char.toLower⟩

/-- Attribute lookup used by Client.__eq__, self.__getattribute__(variable). -/
def ClientRec.getAttribute (c : ClientRec) : ClientField → String
  | .name => c.name
  | .toplevel_id => c.toplevel_id

/-- Client.__eq__ (client_classes.py lines 9-12): the list of case-insensitive
string matches over comparison_variables, reduced with all(). -/
def clientEq (comparison_variables : List ClientField) (self other : ClientRec) : Bool :=
  (comparison_variables.map
    (fun v => pyLower (self.getAttribute v) == pyLower (other.getAttribute v))).all
    (fun b => b)

/-- Client.comparison_variables as initialized in client_classes.py line 7. -/
def comparison_variables_initial : List ClientField := [.name]

/-- Client.comparison_variables at the diff step of sync_clients.py: line 233
appends toplevel_id exactly once when a toplevel is configured and resolved,
and the list is not touched anywhere else before line 240 computes the diff. -/
def comparison_variables_at_diff (toplevel_configured : Bool) : List ClientField :=
  if toplevel_configured then comparison_variables_initial ++ [.toplevel_id]
  else comparison_variables_initial

/-- The diff of sync_clients.py line 240: the list comprehension
keeps each N-sight client that is not a member of halo_clients, where list
membership tests each halo element equal to the client via Client.__eq__. -/
def missing_clients (vars : List ClientField) (nsight_clients halo_clients : List ClientRec) :
    List ClientRec :=
  nsight_clients.filter (fun client => !(halo_clients.any (fun h => clientEq vars h client)))

/-! ### Basic lemmas about the comparison -/

theorem clientEq_iff (vars : List ClientField) (a b : ClientRec) :
    clientEq vars a b = true ↔
      ∀ v ∈ vars, pyLower (a.getAttribute v) = pyLower (b.getAttribute v) := by
  simp [clientEq, List.all_eq_true]

theorem clientEq_refl (vars : List ClientField) (a : ClientRec) : clientEq vars a a = true := by
  simp [clientEq_iff]

theorem clientEq_comm (vars : List ClientField) (a b : ClientRec) :
    clientEq vars a b = clientEq vars b a := by
  simp only [clientEq]
  congr 1
  apply List.map_congr_left
  intro v _
  by_cases h : pyLower (a.getAttribute v) = pyLower (b.getAttribute v)
  · simp [h]
  · simp [h, Ne.symm h]

/-- C8. Identity symmetry: Client equality is symmetric, and it holds exactly
when every field of the active comparison set matches case-insensitively on
its string representation. -/
theorem identity_symmetry (vars : List ClientField) (a b : ClientRec) :
    clientEq vars a b = clientEq vars b a ∧
      (clientEq vars a b = true ↔
        ∀ v ∈ vars, pyLower (a.getAttribute v) = pyLower (b.getAttribute v)) :=
  ⟨clientEq_comm vars a b, clientEq_iff vars a b⟩

/-- C2. Missing-set correctness: missing_clients keeps exactly the source
elements with no equal counterpart in the target, preserves the source order
(it is a sublist of the source list), and satisfies the three corner cases
missing(S,S) = [], missing(S,[]) = S and missing([],T) = []. -/
theorem missing_set_correctness (vars : List ClientField) (S T : List ClientRec) :
    (missing_clients vars S T).Sublist S ∧
      (∀ c, c ∈ missing_clients vars S T ↔
        c ∈ S ∧ ∀ t ∈ T, clientEq vars t c = false) ∧
      missing_clients vars S S = [] ∧
      missing_clients vars S [] = S ∧
      missing_clients vars [] T = [] := by
  refine ⟨List.filter_sublist S, fun c => ?_, ?_, ?_, rfl⟩
  · simp [missing_clients, List.mem_filter, List.any_eq_false]
  · apply List.filter_eq_nil_iff.mpr
    intro c hc
    simp only [List.any_eq_false, Bool.not_eq_true', Bool.not_eq_false]
    intro h
    exact absurd (h c hc) (by simp [clientEq_refl])
  · apply List.filter_eq_self.mpr
    intro c _
    simp

/-- C5. Grouping toggle: when a toplevel is configured the driver appends
toplevel_id exactly once to the comparison set before the diff; for two
records with identical name but (case-insensitively) different toplevel_id,
the diff keeps the source record when grouping is active and drops it when
grouping is inactive. -/
theorem grouping_toggle (a b : ClientRec) (hname : a.name = b.name)
    (hgroup : pyLower a.toplevel_id ≠ pyLower b.toplevel_id) :
    comparison_variables_at_diff true = [.name, .toplevel_id] ∧
      (comparison_variables_at_diff true).count .toplevel_id = 1 ∧
      (comparison_variables_at_diff false).count .toplevel_id = 0 ∧
      missing_clients (comparison_variables_at_diff true) [a] [b] = [a] ∧
      missing_clients (comparison_variables_at_diff false) [a] [b] = [] := by
  refine ⟨rfl, rfl, rfl, ?_, ?_⟩
  · simp [missing_clients, comparison_variables_at_diff, comparison_variables_initial,
      clientEq, ClientRec.getAttribute, hname, Ne.symm hgroup]
  · simp [missing_clients, comparison_variables_at_diff, comparison_variables_initial,
      clientEq, ClientRec.getAttribute, hname]

/-- Witness for grouping_toggle at concrete records. -/
theorem grouping_toggle_witness :
    missing_clients (comparison_variables_at_diff true)
        [⟨"Acme", "12"⟩] [⟨"Acme", "34"⟩] = [⟨"Acme", "12"⟩] ∧
      missing_clients (comparison_variables_at_diff false)
        [⟨"Acme", "12"⟩] [⟨"Acme", "34"⟩] = [] :=
  ⟨(grouping_toggle ⟨"Acme", "12"⟩ ⟨"Acme", "34"⟩ rfl (by decide)).2.2.2.1,
   (grouping_toggle ⟨"Acme", "12"⟩ ⟨"Acme", "34"⟩ rfl (by decide)).2.2.2.2⟩

/-! ## Retry wrapper (general.py, retry_function) -/

/-- Outcome of one invocation of a function wrapped by retry_function: a
return value, or a retryable exception. -/
inductive RetryOutcome (ε α : Type) where
  | success (value : α)
  | failure (exc : ε)
deriving DecidableEq, Repr

/-- What the retry wrapper hands back to its caller: the wrapped function's
result, the Python None that the wrapper returns after non-fatal exhaustion
(the no-result sentinel), or a re-raised exception. -/
inductive RetryResult (ε α : Type) where
  | ok (value : α)
  | noResult
  | raised (exc : ε)
deriving DecidableEq, Repr

/-- The while loop of general.retry_function (lines 70-89). invoke i is the
outcome of the i-th call of the wrapped function, attempt the Python attempt
counter (starting at 1), remaining the number of loop iterations the guard
attempt less-or-equal n_retries still allows. On success the response is
returned; on a retryable failure with attempts remaining the loop sleeps and
retries; on the last failure it re-raises when fatal, and otherwise the loop
exits and the function returns None. -/
def retryLoop (invoke : Nat → RetryOutcome ε α) (fatal : Bool) :
    Nat → Nat → RetryResult ε α
  | _, 0 => .noResult
  | attempt, remaining + 1 =>
    match invoke attempt with
    | .success v => .ok v
    | .failure e =>
      if remaining = 0 then
        if fatal then .raised e else .noResult
      else
        retryLoop invoke fatal (attempt + 1) remaining

/-- general.retry_function: run the retry loop from attempt 1 with n_retries
iterations allowed. -/
def retry_function (invoke : Nat → RetryOutcome ε α) (n_retries : Nat) (fatal : Bool) :
    RetryResult ε α :=
  retryLoop invoke fatal 1 n_retries

/-- How many times the retry loop calls the wrapped function. -/
def retryLoopCalls (invoke : Nat → RetryOutcome ε α) : Nat → Nat → Nat
  | _, 0 => 0
  | attempt, remaining + 1 =>
    match invoke attempt with
    | .success _ => 1
    | .failure _ =>
      if remaining = 0 then 1 else 1 + retryLoopCalls invoke (attempt + 1) remaining

/-- Number of invocations of the wrapped function made by retry_function. -/
def retry_function_calls (invoke : Nat → RetryOutcome ε α) (n_retries : Nat) : Nat :=
  retryLoopCalls invoke 1 n_retries

/-- C7. Retry exhaustion semantics: a wrapped operation that fails on every
invocation, configured for 3 attempts, is invoked exactly 3 times; with
fatal=true the last exception (of attempt 3) is re-raised, with fatal=false
the wrapper returns the no-result sentinel, which is a different value from a
successful empty result. -/
theorem retry_exhaustion (invoke : Nat → RetryOutcome ε (List α)) (errs : Nat → ε)
    (h : ∀ i, invoke i = .failure (errs i)) :
    retry_function invoke 3 true = .raised (errs 3) ∧
      retry_function invoke 3 false = .noResult ∧
      retry_function_calls invoke 3 = 3 ∧
      (RetryResult.noResult : RetryResult ε (List α)) ≠ .ok [] := by
  refine ⟨?_, ?_, ?_, by intro heq; cases heq⟩
  · simp [retry_function, retryLoop, h]
  · simp [retry_function, retryLoop, h]
  · simp [retry_function_calls, retryLoopCalls, h]

/-- Witness for retry_exhaustion: the operation that raises exception i on
attempt i. -/
theorem retry_exhaustion_witness :
    retry_function (fun i => (RetryOutcome.failure i : RetryOutcome Nat (List Nat))) 3 true =
        .raised 3 ∧
      retry_function (fun i => (RetryOutcome.failure i : RetryOutcome Nat (List Nat))) 3 false =
        .noResult ∧
      retry_function_calls (fun i => (RetryOutcome.failure i : RetryOutcome Nat (List Nat))) 3 =
        3 ∧
      (RetryResult.noResult : RetryResult Nat (List Nat)) ≠ .ok [] :=
  retry_exhaustion (fun i => .failure i) (fun i => i) (fun _ => rfl)

/-! ## Pagination (halo_requests.py, HaloInterface.get) -/

/-- One page of a paginated Halo response. record_count stands for the number
the record_count regex of HaloInterface extracts from the raw response text;
body for the rest of the response. -/
structure HaloPage where
  record_count : Nat
  body : String
deriving DecidableEq, Repr

/-- The while loop of HaloInterface.get (halo_requests.py lines 152-162).
request page_no is what the retry-wrapped self.request returns for a given
page number: some page, or none when a non-fatal retry exhaustion produced the
None sentinel. The loop breaks on a missing response or on record_count 0,
otherwise appends the page and moves to the next page number. fuel bounds the
number of iterations that can be modelled; the theorems show results that are
independent of fuel once fuel reaches the terminating page, which is the
termination statement. -/
def haloGetLoop (request : Nat → Option HaloPage) : Nat → Nat → List HaloPage
  | 0, _ => []
  | fuel + 1, page_no =>
    match request page_no with
    | none => []
    | some page =>
      if page.record_count = 0 then []
      else page :: haloGetLoop request fuel (page_no + 1)

/-- HaloInterface.get: run the pagination loop from page_no 1. -/
def HaloInterface_get (request : Nat → Option HaloPage) (fuel : Nat) : List HaloPage :=
  haloGetLoop request fuel 1

/-- C6. Pagination termination: when the server answers pages with
record_count values 10, 10, 0, the loop returns exactly the first two pages,
in order, without the record_count-0 page, and the result is the same for
every sufficient fuel (no infinite loop); each nonzero page is appended before
the next page is requested, which the returned order reflects. -/
theorem pagination_termination (request : Nat → Option HaloPage) (p1 p2 p3 : HaloPage)
    (h1 : request 1 = some p1) (h2 : request 2 = some p2) (h3 : request 3 = some p3)
    (c1 : p1.record_count = 10) (c2 : p2.record_count = 10) (c3 : p3.record_count = 0)
    (fuel : Nat) (hfuel : 3 ≤ fuel) :
    HaloInterface_get request fuel = [p1, p2] := by
  obtain ⟨k, rfl⟩ : ∃ k, fuel = k + 3 := ⟨fuel - 3, by omega⟩
  simp [HaloInterface_get, haloGetLoop, h1, h2, h3, c1, c2, c3]

/-- Witness for pagination_termination at a concrete three-page server. -/
theorem pagination_termination_witness :
    HaloInterface_get
        (fun n => if n = 1 then some ⟨10, "a"⟩ else if n = 2 then some ⟨10, "b"⟩
          else some ⟨0, "c"⟩) 3 = [⟨10, "a"⟩, ⟨10, "b"⟩] :=
  pagination_termination _ ⟨10, "a"⟩ ⟨10, "b"⟩ ⟨0, "c"⟩ rfl rfl rfl rfl rfl rfl 3
    (by decide)

/-- C10. Truncation on a mid-pagination non-fatal failure: when the
retry-wrapped request for page 2 returns the None sentinel, the loop stops and
returns just the accumulated first page, with no exception and no truncation
marker in the value (HaloInterface_get is a total function into a plain list);
a server whose page 2 simply reports record_count 0 yields the very same
value, so the caller cannot tell the truncated listing from a complete one. -/
theorem truncated_pagination (request : Nat → Option HaloPage) (p1 : HaloPage)
    (h1 : request 1 = some p1) (hc : p1.record_count ≠ 0) (h2 : request 2 = none)
    (fuel : Nat) (hfuel : 2 ≤ fuel) :
    HaloInterface_get request fuel = [p1] ∧
      HaloInterface_get (fun n => if n = 1 then some p1 else some ⟨0, ""⟩) fuel = [p1] := by
  obtain ⟨k, rfl⟩ : ∃ k, fuel = k + 2 := ⟨fuel - 2, by omega⟩
  constructor
  · simp [HaloInterface_get, haloGetLoop, h1, h2, hc]
  · simp [HaloInterface_get, haloGetLoop, hc]

/-- Witness for truncated_pagination: one good page, then retry exhaustion. -/
theorem truncated_pagination_witness :
    HaloInterface_get (fun n => if n = 1 then some ⟨10, "a"⟩ else none) 2 = [⟨10, "a"⟩] ∧
      HaloInterface_get (fun n => if n = 1 then some ⟨10, "a"⟩ else some ⟨0, ""⟩) 2 =
        [⟨10, "a"⟩] :=
  truncated_pagination _ ⟨10, "a"⟩ rfl (by decide) rfl 2 (by decide)

/-! ## HTTP responses, dry-run, and the N-sight fetch step -/

/-- A requests.Response as far as the driver inspects it. -/
structure HttpResponse where
  status_code : Nat
  reason : String
  text : String
deriving DecidableEq, Repr

/-- Truthiness of a requests.Response: ok, that is status below 400. -/
def HttpResponse.ok (r : HttpResponse) : Bool := r.status_code < 400

/-- Python exceptions that the modelled code can raise. -/
inductive PyError where
  | attributeError
  | typeError
  | sqliteError
deriving DecidableEq, Repr

/-- HaloInterface.mock_post (halo_requests.py lines 119-137): builds a json
echoing the call arguments, registers it with the responses library as the
answer to the next POST, and performs that POST, which the library intercepts;
the value is a synthetic status-201 response and nothing reaches the network. -/
def mock_post (args : String) : HttpResponse :=
  { status_code := 201, reason := "Created", text := "mock post response " ++ args }

/-- HaloInterface.post as dispatched by the constructor (halo_requests.py
lines 75-81): with dryrun the constructor has replaced post by mock_post, so
no request leaves the process; otherwise the request is sent and the server
answers. The second component collects the requests that actually reach the
network. -/
def HaloInterface_post (dryrun : Bool) (server : String → HttpResponse) (payload : String) :
    HttpResponse × List String :=
  if dryrun then (mock_post payload, [])
  else (server payload, [payload])

/-- sync_clients.py line 89: the backup database path is the in-memory SQLite
path for a dry run and the configured file path otherwise. -/
def sql_database_path (dryrun : Bool) (ini_sql_database_path : String) : String :=
  if dryrun then ":memory:" else ini_sql_database_path

/-- C9. Dry-run isolation: in dry-run mode post sends nothing to the network
and returns a synthetic response whose status is 201, exactly the status of a
real create, so status inspection cannot tell the two apart; and the SQL store
the driver opens is the in-memory one, so nothing is persisted to disk. -/
theorem dry_run_isolation (server : String → HttpResponse) (payload ini_path : String) :
    (HaloInterface_post true server payload).2 = [] ∧
      (HaloInterface_post true server payload).1.status_code = 201 ∧
      (HaloInterface_post true server payload).1.ok = true ∧
      sql_database_path true ini_path = ":memory:" :=
  ⟨rfl, rfl, rfl, rfl⟩

/-- The N-sight clients fetch step of the driver (sync_clients.py lines
146-155). The retry-wrapped get_clients (nsight_requests.py, non-fatal retry)
either hands back a response or the None sentinel after retry exhaustion. A
truthy response is parsed into client records; a falsy-but-present response is
logged through its status_code and reason and the client list degrades to
empty; when the sentinel None arrives, the log call evaluates
None.status_code, which raises AttributeError and ends the run. -/
def nsight_clients_step (response : Option HttpResponse)
    (parse : HttpResponse → List ClientRec) : Except PyError (List ClientRec) :=
  match response with
  | some r => if r.ok then .ok (parse r) else .ok []
  | none => .error .attributeError

/-- C4 (code bug). Source fetch after retry exhaustion: instead of degrading
to an empty source list, the driver crashes with AttributeError, because the
failure log line reads status_code off the None sentinel; the degradation the
spec describes only happens for an error response that is actually present. -/
theorem source_fetch_exhaustion_crash (parse : HttpResponse → List ClientRec) :
    nsight_clients_step none parse = .error .attributeError ∧
      (∀ r : HttpResponse, r.ok = false → nsight_clients_step (some r) parse = .ok []) := by
  refine ⟨rfl, fun r hr => ?_⟩
  simp [nsight_clients_step, hr]

/-! ## The post and backup stage of the driver (sync_clients.py lines 265-304) -/

/-- The payload NsightClient.get_post_payload builds (client_classes.py lines
31-36): name, toplevel_id as string, and the fixed N-able colour. -/
structure PostPayload where
  name : String
  toplevel_id : String
  colour : String
deriving DecidableEq, Repr

/-- NsightClient.get_post_payload. -/
def get_post_payload (c : ClientRec) : PostPayload :=
  { name := c.name, toplevel_id := c.toplevel_id, colour := "#a75ded" }

/-- The observable actions of the post and backup loops, in program order: a
POST of a payload list to the Halo client endpoint, or an attempted insert
into the SQL backup table. -/
inductive SyncEvent where
  | postAttempt (json : List PostPayload)
  | backupInsertAttempt (backup_id : String) (new : List PostPayload)
deriving DecidableEq, Repr

/-- The post loop (sync_clients.py lines 265-277): posts every missing client
in order, wrapping each payload dict in a list, and collects bool(response)
per client into client_post_success. post_ok i models the truthiness of the
response to the i-th post (the retry-wrapped post is non-fatal here, so a
failure shows up as a falsy value rather than an exception). -/
def post_loop (post_ok : Nat → Bool) : List ClientRec → Nat → List SyncEvent × List Bool
  | [], _ => ([], [])
  | client :: rest, i =>
    let step := post_loop post_ok rest (i + 1)
    (.postAttempt [get_post_payload client] :: step.1, post_ok i :: step.2)

/-- Arguments of one call of SqlTableBackup.insert. post_successful is an
Option: none models a call site that does not pass the argument at all (the
parameter has no default in sql_operations.py line 367). -/
structure BackupInsertArgs where
  session_id : String
  backup_id : String
  action : String
  old : String
  new : List PostPayload
  post_successful : Option Bool

/-- SqlTableBackup.backup_actions (sql_operations.py line 364). -/
def backup_actions : List String := ["insert", "update", "remove"]

/-- SqlTableBackup.insert (sql_operations.py lines 366-392) together with the
Python call binding: a call that does not supply the required post_successful
argument raises TypeError before the body runs; the body raises sqlite3.Error
for an action outside backup_actions and otherwise runs the row insert, whose
outcome the underlying database (db_insert) decides. -/
def SqlTableBackup_insert (db_insert : BackupInsertArgs → Except PyError Unit)
    (args : BackupInsertArgs) : Except PyError Unit :=
  match args.post_successful with
  | none => .error .typeError
  | some _ =>
    if args.action ∈ backup_actions then db_insert args
    else .error .sqliteError

/-- The backup loop (sync_clients.py lines 285-304): walks
zip(missing_clients, client_post_success); a client whose post failed is
skipped with continue; for the others the loop draws a fresh backup id (ids i
at loop position i), logs the attempt and calls sql_backup_table.insert with
session_id, backup_id, action insert, empty old and the serialized payload —
and with no post_successful argument. sqlite3.Error is caught, logged
and the loop continues; any other exception propagates and ends the run.
The result is the event list and the uncaught exception, if any. -/
def backup_loop (session_id : String) (ids : Nat → String)
    (db_insert : BackupInsertArgs → Except PyError Unit) :
    List (ClientRec × Bool) → Nat → List SyncEvent × Option PyError
  | [], _ => ([], none)
  | (client, success) :: rest, i =>
    if success then
      let ev := SyncEvent.backupInsertAttempt (ids i) [get_post_payload client]
      match SqlTableBackup_insert db_insert
          { session_id := session_id, backup_id := ids i, action := "insert",
            old := "", new := [get_post_payload client], post_successful := none } with
      | .error .sqliteError =>
        let step := backup_loop session_id ids db_insert rest (i + 1)
        (ev :: step.1, step.2)
      | .error e => ([ev], some e)
      | .ok _ =>
        let step := backup_loop session_id ids db_insert rest (i + 1)
        (ev :: step.1, step.2)
    else
      backup_loop session_id ids db_insert rest (i + 1)

/-- The post stage of sync_clients.py: the post loop over all missing clients
(lines 265-277) followed by the backup loop over
zip(missing_clients, client_post_success) (lines 285-304). -/
def sync_post_and_backup (missing : List ClientRec) (post_ok : Nat → Bool)
    (session_id : String) (ids : Nat → String)
    (db_insert : BackupInsertArgs → Except PyError Unit) :
    List SyncEvent × Option PyError :=
  let posts := post_loop post_ok missing 0
  let backups := backup_loop session_id ids db_insert (missing.zip posts.2) 0
  (posts.1 ++ backups.1, backups.2)

/-- Backup-before-write ordering as the claim states it, on an event trace:
every post attempt has, strictly earlier in the trace, a backup insert whose
new payload matches the posted payload. -/
def backupBeforeWrite (trace : List SyncEvent) : Prop :=
  ∀ j json, trace.get? j = some (.postAttempt json) →
    ∃ i backup_id, i < j ∧ trace.get? i = some (.backupInsertAttempt backup_id json)

/-! ### Lemmas about the post and backup loops -/

theorem post_loop_fst (post_ok : Nat → Bool) (missing : List ClientRec) (i : Nat) :
    (post_loop post_ok missing i).1 =
      missing.map (fun c => .postAttempt [get_post_payload c]) := by
  induction missing generalizing i with
  | nil => rfl
  | cons c rest ih => simp [post_loop, ih]

theorem post_loop_snd_get (post_ok : Nat → Bool) (missing : List ClientRec) (i k : Nat) :
    (post_loop post_ok missing i).2.get? k =
      if k < missing.length then some (post_ok (i + k)) else none := by
  induction missing generalizing i k with
  | nil => simp [post_loop]
  | cons c rest ih =>
    cases k with
    | zero => simp [post_loop]
    | succ k =>
      have harith : i + 1 + k = i + (k + 1) := by omega
      simp only [post_loop, List.get?_cons_succ]
      rw [ih, harith]
      simp [Nat.succ_lt_succ_iff]

theorem backup_loop_events_mem (session_id : String) (ids : Nat → String)
    (db_insert : BackupInsertArgs → Except PyError Unit)
    (prs : List (ClientRec × Bool)) (i : Nat) :
    ∀ e ∈ (backup_loop session_id ids db_insert prs i).1,
      ∃ k client, prs.get? k = some (client, true) ∧
        e = .backupInsertAttempt (ids (i + k)) [get_post_payload client] := by
  induction prs generalizing i with
  | nil =>
    intro e he
    simp [backup_loop] at he
  | cons p rest ih =>
    obtain ⟨client, success⟩ := p
    intro e he
    by_cases hs : success = true
    · subst hs
      simp only [backup_loop, if_true, SqlTableBackup_insert] at he
      simp only [List.mem_singleton] at he
      exact ⟨0, client, by simp, by simp [he]⟩
    · rw [Bool.not_eq_true] at hs
      subst hs
      simp only [backup_loop, Bool.false_eq_true, if_false] at he
      obtain ⟨k, c, hk, rfl⟩ := ih (i + 1) e he
      have harith : i + (k + 1) = i + 1 + k := by omega
      exact ⟨k + 1, c, by simpa using hk, by rw [harith]⟩

/-- Amended C1. In sync_clients.py the order is the reverse of the claim: the
driver first issues the POST for every missing record, in list order, and only
afterwards runs the backup loop, which attempts a BackupEntry insert with the
matching serialized new payload only for records whose POST succeeded; the
POSTs are independent of the backup store, so a backup failure cannot prevent
any POST. -/
theorem posts_precede_backups (missing : List ClientRec) (post_ok : Nat → Bool)
    (session_id : String) (ids : Nat → String)
    (db_insert : BackupInsertArgs → Except PyError Unit) :
    ∃ backup_events,
      (sync_post_and_backup missing post_ok session_id ids db_insert).1 =
        missing.map (fun c => .postAttempt [get_post_payload c]) ++ backup_events ∧
      ∀ e ∈ backup_events, ∃ k client, missing.get? k = some client ∧ post_ok k = true ∧
        e = .backupInsertAttempt (ids k) [get_post_payload client] := by
  refine ⟨(backup_loop session_id ids db_insert
    (missing.zip (post_loop post_ok missing 0).2) 0).1, ?_, ?_⟩
  · simp [sync_post_and_backup, post_loop_fst]
  · intro e he
    obtain ⟨k, client, hk, rfl⟩ :=
      backup_loop_events_mem session_id ids db_insert _ 0 e he
    rw [List.get?_zip_eq_some] at hk
    obtain ⟨h1, h2⟩ := hk
    rw [post_loop_snd_get] at h2
    by_cases hlen : k < missing.length
    · rw [if_pos hlen] at h2
      refine ⟨k, client, h1, ?_, by simp⟩
      simpa using (Option.some.injEq _ _ ▸ h2 : post_ok (0 + k) = true)
    · rw [if_neg hlen] at h2
      cases h2

/-- Counterexample to C1 as stated: a run with one missing client whose POST
succeeds and whose database is healthy; its trace starts with the POST, so no
backup insert precedes any write attempt. -/
theorem backup_before_write_counterexample :
    ¬ backupBeforeWrite
      (sync_post_and_backup [⟨"Acme", "T1"⟩] (fun _ => true) "s1"
        (fun _ => "abcd1234") (fun _ => .ok ())).1 := by
  intro h
  obtain ⟨i, backup_id, hi, _⟩ := h 0 [⟨"Acme", "T1", "#a75ded"⟩] rfl
  exact Nat.not_lt_zero i hi

/-- C3 (code bug). Backup trail at the failing input (one missing client,
healthy database): when the POST succeeds the backup loop calls
SqlTableBackup.insert without the required post_successful argument, so the
call raises TypeError, which the except sqlite3.Error handler does not catch
and the run aborts; when the POST fails the loop skips the client entirely and
no BackupEntry is ever created; supplying post_successful would have made the
same insert succeed. -/
theorem backup_insert_missing_argument :
    (sync_post_and_backup [⟨"Acme", "T1"⟩] (fun _ => true) "s1" (fun _ => "abcd1234")
        (fun _ => .ok ())).2 = some .typeError ∧
      (sync_post_and_backup [⟨"Acme", "T1"⟩] (fun _ => false) "s1" (fun _ => "abcd1234")
        (fun _ => .ok ())).1 = [.postAttempt [⟨"Acme", "T1", "#a75ded"⟩]] ∧
      SqlTableBackup_insert (fun _ => .ok ())
        { session_id := "s1", backup_id := "abcd1234", action := "insert", old := "",
          new := [⟨"Acme", "T1", "#a75ded"⟩], post_successful := none } =
        .error .typeError ∧
      SqlTableBackup_insert (fun _ => .ok ())
        { session_id := "s1", backup_id := "abcd1234", action := "insert", old := "",
          new := [⟨"Acme", "T1", "#a75ded"⟩], post_successful := some false } =
        .ok () := by
  refine ⟨rfl, rfl, rfl, rfl⟩

end RmmHaloSync
